import Mathlib

/-!
Verification development for the pymelsec MELSEC Communication ("MC") protocol
client (files pymelsec/type3e.py, type4e.py, constants.py, exceptions.py,
tag.py).  Python functions are shallowly embedded as Lean definitions:
bytes become lists of Nat (each byte a value below 256), fallible Python code
(raising exceptions) becomes Option or Except, and the Python class state that
matters here (plc_type, comm_type) is passed explicitly.  The client only ever
packs integers little-endian (self.endian defaults to ENDIAN_LITTLE and is
never changed), so the embedding fixes little-endian byte order.
-/

namespace Pymelsec

/-- Communication type, constants.COMMTYPE_BINARY / COMMTYPE_ASCII. -/
inductive CommType where
  | binary
  | ascii
deriving DecidableEq, Repr

/-- PLC series, constants.Q_SERIES .. iQR_SERIES. -/
inductive PlcSeries where
  | Q
  | L
  | QnA
  | iQL
  | iQR
deriving DecidableEq, Repr

/-- str.upper, written as a per-character map over the string's characters
(extensionally the same as the position-based String.toUpper, but the
character list form evaluates inside proofs).  The client only upper-cases
one-character ASCII format strings and decimal digit strings. -/
def strUpper (s : String) : String := String.mk (s.data.map Char.toUpper)

/-- str.lower, as a per-character map; see strUpper. -/
def strLower (s : String) : String := String.mk (s.data.map Char.toLower)

/-! ## Little-endian byte serialization (struct.pack / struct.unpack, '<' order)

The client passes single-character struct format strings taken from
constants.DT: 'b', 'h', 'H', 'i', 'I', 'q', 'Q', 'f', 'd' (and the uppercased
forms produced by mode.upper() in Type3E._encode_value).  Integer formats are
modelled exactly.  The float formats 'f' and 'd' are modelled bit-exactly for
integer arguments, which is the value domain of this embedding (the codec's
int-typed API): packing rounds to the nearest representable IEEE-754
binary32/binary64 value with ties to even, exactly as CPython's struct does,
and unpacking returns the exact dyadic value the bytes represent, as a
significand/exponent pair (or an infinity or NaN marker). -/

/-- Number of bytes of a struct format character (as a 1-char string), none
for formats struct.pack rejects. -/
def fmtSize (fmt : String) : Option Nat :=
  if fmt == "b" || fmt == "B" then some 1
  else if fmt == "h" || fmt == "H" then some 2
  else if fmt == "i" || fmt == "I" || fmt == "f" then some 4
  else if fmt == "q" || fmt == "Q" || fmt == "d" then some 8
  else none

/-- Lower-case struct integer format characters are signed, upper-case
unsigned ('f' and 'd' never reach the integer packer). -/
def fmtIsSigned (fmt : String) : Bool :=
  fmt == "b" || fmt == "h" || fmt == "i" || fmt == "q"

/-- The struct integer formats; 'f' and 'd' are the float formats. -/
def fmtIsInt (fmt : String) : Bool :=
  fmt == "b" || fmt == "B" || fmt == "h" || fmt == "H"
    || fmt == "i" || fmt == "I" || fmt == "q" || fmt == "Q"

/-- A value returned by struct.unpack: an int for the integer formats; for
the float formats the exact dyadic value sig * 2 ^ exp the bytes represent,
or an infinity or NaN. -/
inductive PyNum where
  | int (v : Int)
  | float (sig : Int) (exp : Int)
  | inf (neg : Bool)
  | nan
deriving DecidableEq, Repr

/-- Python == between an unpacked number and an int: numeric comparison of
exact values; infinities and NaN compare unequal to every int. -/
def pyNumEqInt : PyNum → Int → Bool
  | .int a, b => a == b
  | .float sig exp, b =>
      if 0 ≤ exp then sig * 2 ^ exp.toNat == b else sig == b * 2 ^ (-exp).toNat
  | .inf _, _ => false
  | .nan, _ => false

/-- The n low-order bytes of v, little-endian. -/
def natToLE : Nat → Nat → List Nat
  | 0, _ => []
  | n + 1, v => v % 256 :: natToLE n (v / 256)

/-- Recombine a little-endian byte list into a natural number. -/
def leToNat : List Nat → Nat
  | [] => 0
  | b :: bs => b + 256 * leToNat bs

theorem natToLE_length (n v : Nat) : (natToLE n v).length = n := by
  induction n generalizing v with
  | zero => rfl
  | succ n ih => simp [natToLE, ih]

theorem leToNat_natToLE (n v : Nat) : leToNat (natToLE n v) = v % 2 ^ (8 * n) := by
  induction n generalizing v with
  | zero => simp [natToLE, leToNat, Nat.mod_one]
  | succ n ih =>
      have h256 : (2 : Nat) ^ (8 * (n + 1)) = 256 * 2 ^ (8 * n) := by ring
      rw [natToLE, leToNat, ih, h256, Nat.mod_mul]

/-- Number of binary digits of a natural number (0 for 0), computed with an
explicit structural fuel so that it evaluates inside proofs. -/
def bitLenAux : Nat → Nat → Nat
  | 0, _ => 0
  | fuel + 1, n => if n = 0 then 0 else bitLenAux fuel (n / 2) + 1

/-- Number of binary digits of a natural number; the number itself is always
enough fuel. -/
def bitLen (n : Nat) : Nat := bitLenAux n n

/-- Round a positive natural number to prec significant binary digits with
ties to even — the rounding struct.pack applies when converting an integer
argument to an IEEE-754 float whose significand is narrower than the
integer. -/
def roundSig (prec : Nat) (m : Nat) : Nat :=
  let L := bitLen m
  if L ≤ prec then m
  else
    let k := L - prec
    let q := m >>> k
    let r := m % 2 ^ k
    let half := 2 ^ (k - 1)
    let q2 := if half < r || (r == half && q % 2 == 1) then q + 1 else q
    q2 <<< k

/-- struct.pack for an IEEE-754 binary float format with ebits exponent bits
and a prec-bit significand (binary32: 8/24, binary64: 11/53), for an integer
argument: the value is rounded to prec significant bits (ties to even) and
encoded as sign, biased exponent and fraction field, little-endian; exponent
overflow (the rounded magnitude reaching the infinity range) raises
OverflowError in CPython, modelled none. -/
def packFloatBits (ebits prec : Nat) (v : Int) : Option (List Nat) :=
  let nbytes := (ebits + prec) / 8
  let bias := 2 ^ (ebits - 1) - 1
  let signBit : Nat := if v < 0 then 1 else 0
  let m := v.natAbs
  if m = 0 then some (natToLE nbytes (signBit <<< (ebits + prec - 1)))
  else
    let rounded := roundSig prec m
    let e := bitLen rounded - 1
    if 2 ^ ebits ≤ bias + e + 1 then none
    else
      let frac :=
        if prec - 1 ≤ e then (rounded - 2 ^ e) >>> (e - (prec - 1))
        else (rounded - 2 ^ e) <<< ((prec - 1) - e)
      some (natToLE nbytes
        ((signBit <<< (ebits + prec - 1)) ||| ((e + bias) <<< (prec - 1)) ||| frac))

/-- struct.unpack for an IEEE-754 binary float format: splits the word into
sign, biased exponent and fraction, returning the exact represented dyadic
value (normal or subnormal), an infinity, or NaN. -/
def unpackFloatBits (ebits prec : Nat) (bs : List Nat) : Option PyNum :=
  if bs.length = (ebits + prec) / 8 then
    let w := leToNat bs
    let signBit := w >>> (ebits + prec - 1)
    let E := (w >>> (prec - 1)) % 2 ^ ebits
    let frac := w % 2 ^ (prec - 1)
    let bias := 2 ^ (ebits - 1) - 1
    if E = 2 ^ ebits - 1 then
      if frac = 0 then some (.inf (signBit = 1)) else some .nan
    else if E = 0 then
      some (.float (if signBit = 1 then -(frac : Int) else (frac : Int))
        (1 - (bias : Int) - ((prec : Int) - 1)))
    else
      some (.float
        (if signBit = 1 then -((2 ^ (prec - 1) + frac : Nat) : Int)
         else ((2 ^ (prec - 1) + frac : Nat) : Int))
        ((E : Int) - bias - ((prec : Int) - 1)))
  else none

/-- struct.pack for an integer format of n bytes: none (struct.error) when the
value does not fit, otherwise the little-endian two's-complement bytes. -/
def packCore (n : Nat) (signed : Bool) (value : Int) : Option (List Nat) :=
  if signed then
    if -((2 : Int) ^ (8 * n - 1)) ≤ value ∧ value < (2 : Int) ^ (8 * n - 1) then
      some (natToLE n (value % (2 : Int) ^ (8 * n)).toNat)
    else none
  else
    if 0 ≤ value ∧ value < (2 : Int) ^ (8 * n) then
      some (natToLE n value.toNat)
    else none

/-- struct.unpack for an integer format of n bytes: requires the exact byte
count, interprets little-endian, two's complement when signed. -/
def unpackCore (n : Nat) (signed : Bool) (bs : List Nat) : Option Int :=
  if bs.length = n then
    if signed && decide (2 ^ (8 * n - 1) ≤ leToNat bs) then
      some ((leToNat bs : Int) - (2 : Int) ^ (8 * n))
    else
      some (leToNat bs : Int)
  else none

/-- struct.pack over a format string, for an integer argument: the float
formats go through the IEEE encoder, the integer formats through the
two's-complement packer, anything else raises struct.error (none). -/
def structPack (fmt : String) (value : Int) : Option (List Nat) :=
  if fmt == "f" then packFloatBits 8 24 value
  else if fmt == "d" then packFloatBits 11 53 value
  else
    match fmtSize fmt with
    | none => none
    | some n => packCore n (fmtIsSigned fmt) value

/-- struct.unpack over a format string. -/
def structUnpack (fmt : String) (bs : List Nat) : Option PyNum :=
  if fmt == "f" then unpackFloatBits 8 24 bs
  else if fmt == "d" then unpackFloatBits 11 53 bs
  else
    match fmtSize fmt with
    | none => none
    | some n => (unpackCore n (fmtIsSigned fmt) bs).map PyNum.int

theorem emod_add_self_of_neg (v M : Int) (h0 : -M ≤ v) (h1 : v < 0) :
    v % M = v + M := by
  have h2 : (v + M * 1) % M = v % M := Int.add_mul_emod_self_left ..
  rw [mul_one] at h2
  rw [← h2]
  exact Int.emod_eq_of_lt (by omega) (by omega)

theorem unpackCore_packCore (n : Nat) (hn : 1 ≤ n) (signed : Bool) (v : Int)
    (bs : List Nat) (h : packCore n signed v = some bs) :
    unpackCore n signed bs = some v := by
  have hk : 8 * n = (8 * n - 1) + 1 := by omega
  have hHpos : 0 < (2 : Nat) ^ (8 * n - 1) := pow_pos (by norm_num) _
  have hcastN : ((2 ^ (8 * n) : Nat) : Int) = (2 : Int) ^ (8 * n) := by push_cast; ring
  have hcastH : ((2 ^ (8 * n - 1) : Nat) : Int) = (2 : Int) ^ (8 * n - 1) := by push_cast; ring
  have hsplitI : (2 : Int) ^ (8 * n) = 2 ^ (8 * n - 1) * 2 := by
    conv_lhs => rw [hk]
    rw [pow_succ]
  have hpow : (0 : Int) < (2 : Int) ^ (8 * n) := by positivity
  cases signed with
  | false =>
      unfold packCore at h
      rw [if_neg Bool.false_ne_true] at h
      by_cases hr : 0 ≤ v ∧ v < (2 : Int) ^ (8 * n)
      · rw [if_pos hr] at h
        injection h with hbs
        subst hbs
        obtain ⟨hv0, hvlt⟩ := hr
        unfold unpackCore
        rw [if_pos (natToLE_length n v.toNat), leToNat_natToLE]
        set Mn : Nat := 2 ^ (8 * n) with hMn
        set Hn : Nat := 2 ^ (8 * n - 1) with hHn
        set Mi : Int := (2 : Int) ^ (8 * n) with hMi
        set Hi : Int := (2 : Int) ^ (8 * n - 1) with hHi
        have hmod : v.toNat % Mn = v.toNat := Nat.mod_eq_of_lt (by omega)
        rw [hmod, if_neg (by simp)]
        congr 1
        omega
      · rw [if_neg hr] at h
        exact absurd h (by simp)
  | true =>
      unfold packCore at h
      rw [if_pos rfl] at h
      by_cases hr : -((2 : Int) ^ (8 * n - 1)) ≤ v ∧ v < (2 : Int) ^ (8 * n - 1)
      · rw [if_pos hr] at h
        injection h with hbs
        subst hbs
        obtain ⟨hv1, hv2⟩ := hr
        unfold unpackCore
        rw [if_pos (natToLE_length n _), leToNat_natToLE]
        have h0 : 0 ≤ v % (2 : Int) ^ (8 * n) := Int.emod_nonneg v (ne_of_gt hpow)
        have hlt : v % (2 : Int) ^ (8 * n) < (2 : Int) ^ (8 * n) := Int.emod_lt_of_pos v hpow
        set E : Int := v % (2 : Int) ^ (8 * n) with hE
        set Mn : Nat := 2 ^ (8 * n) with hMn
        set Hn : Nat := 2 ^ (8 * n - 1) with hHn
        set Mi : Int := (2 : Int) ^ (8 * n) with hMi
        set Hi : Int := (2 : Int) ^ (8 * n - 1) with hHi
        have hmod : E.toNat % Mn = E.toNat := Nat.mod_eq_of_lt (by omega)
        rw [hmod]
        rcases le_or_lt 0 v with hv0 | hv0
        · have hveq : E = v := by
            rw [hE]
            exact Int.emod_eq_of_lt hv0 (by omega)
          rw [if_neg (by simp only [Bool.true_and, decide_eq_true_eq]; omega)]
          congr 1
          omega
        · have hveq : E = v + Mi := by
            rw [hE]
            exact emod_add_self_of_neg v Mi (by omega) hv0
          rw [if_pos (by simp only [Bool.true_and, decide_eq_true_eq]; omega)]
          congr 1
          omega
      · rw [if_neg hr] at h
        exact absurd h (by simp)

theorem fmtSize_pos (fmt : String) (n : Nat) (h : fmtSize fmt = some n) : 1 ≤ n := by
  unfold fmtSize at h
  split_ifs at h <;> simp_all <;> omega

theorem fmtIsInt_ne_float (fmt : String) (h : fmtIsInt fmt = true) :
    (fmt == "f") = false ∧ (fmt == "d") = false := by
  simp only [fmtIsInt, Bool.or_eq_true, beq_iff_eq, or_assoc] at h
  rcases h with h | h | h | h | h | h | h | h <;> subst h <;> exact ⟨rfl, rfl⟩

theorem structUnpack_structPack (fmt : String) (hint : fmtIsInt fmt = true)
    (v : Int) (bs : List Nat) (h : structPack fmt v = some bs) :
    structUnpack fmt bs = some (PyNum.int v) := by
  obtain ⟨hf, hd⟩ := fmtIsInt_ne_float fmt hint
  unfold structPack at h
  simp only [hf, hd, Bool.false_eq_true, if_false] at h
  unfold structUnpack
  simp only [hf, hd, Bool.false_eq_true, if_false]
  cases hsz : fmtSize fmt with
  | none => rw [hsz] at h; exact absurd h (by simp)
  | some n =>
      rw [hsz] at h
      show (unpackCore n (fmtIsSigned fmt) bs).map PyNum.int = some (PyNum.int v)
      rw [unpackCore_packCore n (fmtSize_pos fmt n hsz) _ v bs h]
      rfl

/-! ## Value codec: Type3E._encode_value and Type3E._decode_value

Source (type3e.py lines 416-469).  Both functions wrap their whole body in a
bare try/except re-raised as ValueError, modelled as none.

In ASCII mode, _encode_value attempts the hex-text rendering through the
chain if mode.lower() == const.DT.BIT / elif mode.lower() == const.DT.sWORD /
elif mode.lower() == const.DT.sDWORD.  When the first test matches (mode 'b'),
the branch body formats value_byte — the BYTES object produced by struct.pack
— with the format spec 02x, and formatting a bytes object with a non-empty
format spec raises TypeError.  When the first test does not match, evaluating
const.DT.sWORD in the second test raises AttributeError, because class DT
spells that attribute SWORD (likewise sDWORD versus SDWORD).  Either exception
is swallowed by the bare except and re-raised as
ValueError("Exceeded device value range"), so in ASCII mode _encode_value
fails for EVERY mode, 'q'/'Q'/'f'/'d' included; the whole ASCII branch is
modelled as none.

In ASCII mode, _decode_value first runs bytes.fromhex(byte_array) where
byte_array is a bytes object; bytes.fromhex accepts only str, so this raises
TypeError, converted to ValueError by the bare except: modelled as none. -/

/-- Type3E._encode_value: mode is upper-cased when not signed, the value is
packed little-endian; in ASCII mode the hex-text rendering fails for every
mode (see section comment: TypeError on the bytes format for 'b',
AttributeError on const.DT.sWORD for every other mode, both re-raised as
ValueError). -/
def encode_value (comm : CommType) (value : Int) (mode : String) (isSigned : Bool) :
    Option (List Nat) :=
  match structPack (if isSigned then mode else strUpper mode) value with
  | none => none
  | some bs =>
      if comm = CommType.binary then some bs
      else
        if strLower (if isSigned then mode else strUpper mode) == "b" then
          none
        else
          none

/-- Type3E._decode_value: in ASCII mode bytes.fromhex on a bytes object raises
(see section comment), so only binary mode can produce a value. -/
def decode_value (comm : CommType) (byteArray : List Nat) (mode : String) (isSigned : Bool) :
    Option PyNum :=
  match comm with
  | CommType.binary => structUnpack (if isSigned then mode else strUpper mode) byteArray
  | CommType.ascii => none

/-! ## Data type registry (constants.DT) -/

/-- constants.DT.get_dt_size: byte size of a data type symbol or canonical
name; none models raising DataTypeError. -/
def get_dt_size (data_type : String) : Option Nat :=
  if data_type == "b" || data_type == "BIT" || data_type == "h" || data_type == "SWORD"
      || data_type == "H" || data_type == "UWORD" then some 2
  else if data_type == "i" || data_type == "SDWORD" || data_type == "I" || data_type == "UDWORD"
      || data_type == "f" || data_type == "FLOAT" then some 4
  else if data_type == "d" || data_type == "DOUBLE" || data_type == "q" || data_type == "SLWORD"
      || data_type == "Q" || data_type == "ULWORD" then some 8
  else none

/-- constants.DT.get_dt_name: canonical name of a data type symbol; none
models raising DataTypeError. -/
def get_dt_name (data_type : String) : Option String :=
  if data_type == "b" then some "BIT"
  else if data_type == "h" then some "SWORD"
  else if data_type == "H" then some "UWORD"
  else if data_type == "i" then some "SDWORD"
  else if data_type == "I" then some "UDWORD"
  else if data_type == "f" then some "FLOAT"
  else if data_type == "d" then some "DOUBLE"
  else if data_type == "q" then some "SLWORD"
  else if data_type == "Q" then some "ULWORD"
  else none

/-! ## Device address table (constants.DeviceConstants) -/

/-- constants.DeviceConstants.get_binary_device_code (lines 240-326).  Returns
the one-byte device code and the numeric base; raising DeviceCodeError is
modelled as Except.error carrying (plc_type, device_name) exactly as the
exception constructor receives them.  Note: the iQ-R-only chain has branches
for LTS, LTC, LTN, LSTS, LSTN, LCS, LCC, LCN, LZ and RD, but none for LSTC,
mirroring the source (LSTC_DEVICE is declared at line 220 but never
returned). -/
def get_binary_device_code (plc_type : PlcSeries) (device_name : String) :
    Except (PlcSeries × String) (Nat × Nat) :=
  if device_name == "SM" then .ok (0x91, 10)
  else if device_name == "SD" then .ok (0xA9, 10)
  else if device_name == "X" then .ok (0x9C, 16)
  else if device_name == "Y" then .ok (0x9D, 16)
  else if device_name == "M" then .ok (0x90, 10)
  else if device_name == "L" then .ok (0x92, 10)
  else if device_name == "F" then .ok (0x93, 10)
  else if device_name == "V" then .ok (0x94, 10)
  else if device_name == "B" then .ok (0xA0, 16)
  else if device_name == "D" then .ok (0xA8, 10)
  else if device_name == "W" then .ok (0xB4, 16)
  else if device_name == "TS" then .ok (0xC1, 10)
  else if device_name == "TC" then .ok (0xC0, 10)
  else if device_name == "TN" then .ok (0xC2, 10)
  else if device_name == "STS" then .ok (0xC7, 10)
  else if device_name == "STC" then .ok (0xC6, 10)
  else if device_name == "STN" then .ok (0xC8, 10)
  else if device_name == "CS" then .ok (0xC4, 10)
  else if device_name == "CC" then .ok (0xC3, 10)
  else if device_name == "CN" then .ok (0xC5, 10)
  else if device_name == "SB" then .ok (0xA1, 16)
  else if device_name == "SW" then .ok (0xB5, 16)
  else if device_name == "DX" then .ok (0xA2, 16)
  else if device_name == "DY" then .ok (0xA3, 16)
  else if device_name == "R" then .ok (0xAF, 10)
  else if device_name == "ZR" then .ok (0xB0, 16)
  else if device_name == "LTS" && plc_type == PlcSeries.iQR then .ok (0x51, 10)
  else if device_name == "LTC" && plc_type == PlcSeries.iQR then .ok (0x50, 10)
  else if device_name == "LTN" && plc_type == PlcSeries.iQR then .ok (0x52, 10)
  else if device_name == "LSTS" && plc_type == PlcSeries.iQR then .ok (0x59, 10)
  else if device_name == "LSTN" && plc_type == PlcSeries.iQR then .ok (0x5A, 10)
  else if device_name == "LCS" && plc_type == PlcSeries.iQR then .ok (0x55, 10)
  else if device_name == "LCC" && plc_type == PlcSeries.iQR then .ok (0x54, 10)
  else if device_name == "LCN" && plc_type == PlcSeries.iQR then .ok (0x56, 10)
  else if device_name == "LZ" && plc_type == PlcSeries.iQR then .ok (0x62, 10)
  else if device_name == "RD" && plc_type == PlcSeries.iQR then .ok (0x2C, 10)
  else .error (plc_type, device_name)

/-- str.ljust with the fill character '*', as used by get_ascii_device_code. -/
def ljustStar (s : String) (width : Nat) : String :=
  s ++ String.mk (List.replicate (width - s.length) '*')

/-- constants.DeviceConstants.get_ascii_device_code (lines 329-428).  Padding
is 4 for iQ-R, 2 otherwise; STS/STC/STN abbreviate to SS/SC/SN outside iQ-R.
As in the binary table, the iQ-R-only chain has no LSTC branch. -/
def get_ascii_device_code (plc_type : PlcSeries) (device_name : String) :
    Except (PlcSeries × String) (String × Nat) :=
  let padding := if plc_type == PlcSeries.iQR then 4 else 2
  if device_name == "SM" then .ok (ljustStar device_name padding, 10)
  else if device_name == "SD" then .ok (ljustStar device_name padding, 10)
  else if device_name == "X" then .ok (ljustStar device_name padding, 16)
  else if device_name == "Y" then .ok (ljustStar device_name padding, 16)
  else if device_name == "M" then .ok (ljustStar device_name padding, 10)
  else if device_name == "L" then .ok (ljustStar device_name padding, 10)
  else if device_name == "F" then .ok (ljustStar device_name padding, 10)
  else if device_name == "V" then .ok (ljustStar device_name padding, 10)
  else if device_name == "B" then .ok (ljustStar device_name padding, 16)
  else if device_name == "D" then .ok (ljustStar device_name padding, 10)
  else if device_name == "W" then .ok (ljustStar device_name padding, 16)
  else if device_name == "TS" then .ok (ljustStar device_name padding, 10)
  else if device_name == "TC" then .ok (ljustStar device_name padding, 10)
  else if device_name == "TN" then .ok (ljustStar device_name padding, 10)
  else if device_name == "STS" then
    if plc_type == PlcSeries.iQR then .ok (ljustStar "STS" padding, 10)
    else .ok (ljustStar "SS" padding, 10)
  else if device_name == "STC" then
    if plc_type == PlcSeries.iQR then .ok (ljustStar "STC" padding, 10)
    else .ok (ljustStar "SC" padding, 10)
  else if device_name == "STN" then
    if plc_type == PlcSeries.iQR then .ok (ljustStar "STN" padding, 10)
    else .ok (ljustStar "SN" padding, 10)
  else if device_name == "CS" then .ok (ljustStar device_name padding, 10)
  else if device_name == "CC" then .ok (ljustStar device_name padding, 10)
  else if device_name == "CN" then .ok (ljustStar device_name padding, 10)
  else if device_name == "SB" then .ok (ljustStar device_name padding, 16)
  else if device_name == "SW" then .ok (ljustStar device_name padding, 16)
  else if device_name == "DX" then .ok (ljustStar device_name padding, 16)
  else if device_name == "DY" then .ok (ljustStar device_name padding, 16)
  else if device_name == "R" then .ok (ljustStar device_name padding, 10)
  else if device_name == "ZR" then .ok (ljustStar device_name padding, 16)
  else if device_name == "LTS" && plc_type == PlcSeries.iQR then .ok (ljustStar device_name padding, 10)
  else if device_name == "LTC" && plc_type == PlcSeries.iQR then .ok (ljustStar device_name padding, 10)
  else if device_name == "LTN" && plc_type == PlcSeries.iQR then .ok (ljustStar device_name padding, 10)
  else if device_name == "LSTS" && plc_type == PlcSeries.iQR then .ok (ljustStar device_name padding, 10)
  else if device_name == "LSTN" && plc_type == PlcSeries.iQR then .ok (ljustStar device_name padding, 10)
  else if device_name == "LCS" && plc_type == PlcSeries.iQR then .ok (ljustStar device_name padding, 10)
  else if device_name == "LCC" && plc_type == PlcSeries.iQR then .ok (ljustStar device_name padding, 10)
  else if device_name == "LCN" && plc_type == PlcSeries.iQR then .ok (ljustStar device_name padding, 10)
  else if device_name == "LZ" && plc_type == PlcSeries.iQR then .ok (ljustStar device_name padding, 10)
  else if device_name == "RD" && plc_type == PlcSeries.iQR then .ok (ljustStar device_name padding, 10)
  else .error (plc_type, device_name)

/-- The iQ-R-only device type names as listed by the specification (section
4.2): the "L*" family and "RD". -/
def iqrOnlyNames : List String :=
  ["LTS", "LTC", "LTN", "LSTS", "LSTC", "LSTN", "LCS", "LCC", "LCN", "LZ", "RD"]

/-! ## Error mapper (exceptions.MCError, Type3E._check_mc_error) -/

/-- str.rjust. -/
def rjust (s : String) (width : Nat) (fill : Char) : String :=
  String.mk (List.replicate (width - s.length) fill) ++ s

/-- exceptions.MCError.__init__ (line 15): the stored errorcode is the STRING
built from the DECIMAL rendering of the status (str applied to the int),
right-justified to width 4 with '0' and upper-cased, prefixed with 0x.  For
status 0xC056 = 49238 this yields the five-digit decimal "0x49238". -/
def mcErrorCodeStr (errorcode : Nat) : String :=
  "0x" ++ strUpper (rjust (toString errorcode) 4 '0')

/-- Python == between a str and an int compares False (no exception).  In
MCError.__str__ the left operand self.errorcode is always a str and the right
operand is always an int literal, so every equality branch tests False. -/
def pyEqStrInt (_s : String) (_k : Nat) : Bool := false

/-- Python >= between a str and an int raises TypeError.  This combination is
the one occurring in MCError.__str__ line 23. -/
def pyGeStrInt (_s : String) (_k : Nat) : Except String Bool := .error "TypeError"

/-- Python <= between a str and an int raises TypeError. -/
def pyLeStrInt (_s : String) (_k : Nat) : Except String Bool := .error "TypeError"

/-- exceptions.MCError.__str__ (lines 18-73), transcribed branch by branch.
The argument is the stored errorcode string from __init__.  Each branch
compares that STRING to an int literal: the == branches are False and the
first ordered comparison (errorcode >= 0x0051, line 23) raises TypeError, so
evaluation never reaches any message, including the 0xC056 branch.  A Python
fall-through past every branch would return None, modelled as Except.ok
none. -/
def mcErrorStr (errorcode : String) : Except String (Option String) := do
  if pyEqStrInt errorcode 0x0050 then
    return some (errorcode ++ ": When \"Communication Data Code\" is set to" ++
      "ASCII Code, ASCII code data that cannot be converted to binary were received.")
  let b1 ← pyGeStrInt errorcode 0x0051
  let cond2 ← if b1 then pyLeStrInt errorcode 0x0054 else pure false
  if cond2 then
    return some (errorcode ++ ": The number of read or write points is " ++
      "outside the allowable range.")
  if pyEqStrInt errorcode 0x0055 then
    return some (errorcode ++ ": Although online change is disabled, the connected " ++
      "device requested the RUN-state CPU module for data writing.")
  if pyEqStrInt errorcode 0xC056 then
    return some (errorcode ++ ": The read or write request exceeds the maximum address.")
  if pyEqStrInt errorcode 0xC058 then
    return some (errorcode ++ ": The request data length after ASCII-to-binary conversion " ++
      "does not match the data size of the character area (a part of text data).")
  if pyEqStrInt errorcode 0xC059 then
    return some (errorcode ++ ":  The command and/or subcommand are specified incorrectly. " ++
      "The CPU module does not support the command and/or subcommand.")
  if pyEqStrInt errorcode 0xC05B then
    return some (errorcode ++ ": The CPU module cannot read data from or write data to the " ++
      "specified device.")
  if pyEqStrInt errorcode 0xC05C then
    return some (errorcode ++ ": The request data is incorrect. (e.g. reading or writing data " ++
      "in units of bits from or to a word device)")
  if pyEqStrInt errorcode 0xC05D then
    return some (errorcode ++ ": No monitor registration")
  if pyEqStrInt errorcode 0xC05F then
    return some (errorcode ++ ": The request cannot be executed to the CPU module.")
  if pyEqStrInt errorcode 0xC060 then
    return some (errorcode ++ ": The request data is incorrect. (ex. incorrect specification " ++
      "of data for bit devices)")
  if pyEqStrInt errorcode 0xC061 then
    return some (errorcode ++ ": The request data length does not match the number of data in " ++
      "the character area (a part of text data).")
  if pyEqStrInt errorcode 0xC06F then
    return some (errorcode ++ ": The CPU module received a request message in ASCII format when " ++
      "\"Communication Data Code is set to Binary Code, or received it in " ++
      "binary format when the setting is set to ASCII Code. (This error code " ++
      "is only registered to the error history, and no abnormal response is " ++
      "returned.)")
  if pyEqStrInt errorcode 0xC070 then
    return some (errorcode ++ ": The device memory extension cannot be specified for the " ++
      "target station.")
  if pyEqStrInt errorcode 0xC0B5 then
    return some (errorcode ++ ": The CPU module cannot handle the data specified.")
  if pyEqStrInt errorcode 0xC200 then
    return some (errorcode ++ ": The remote password is incorrect.")
  if pyEqStrInt errorcode 0xC201 then
    return some (errorcode ++ ": The port used for communication is locked with the remote " ++
      "password. Or, because of the remote password lock status with " ++
      "\"Communication Data Code\" set to ASCII Code, the subcommand " ++
      "and later part cannot be converted to a binary code.")
  if pyEqStrInt errorcode 0xC204 then
    return some (errorcode ++ ": The connected device is different from the one that requested for " ++
      "unlock processing of the remote password.")
  return none

/-- The MCError exception object, reduced to the one field __init__ sets. -/
structure MCErr where
  errorcode : String
deriving DecidableEq, Repr

/-- Type3E._check_mc_error (lines 489-501): status 0 returns None, any other
status raises MCError(status). -/
def check_mc_error (status : Nat) : Except MCErr Unit :=
  if status = 0 then .ok () else .error ⟨mcErrorCodeStr status⟩

/-! ## Tags and decoded Python values (tag.Tag) -/

/-- A decoded Python value.  Integer and boolean results are exact; IEEE-754
float results are kept abstract as their raw little-endian bytes (floatRaw),
since no claim depends on float numerics. -/
inductive PyValue where
  | int (v : Int)
  | bool (b : Bool)
  | floatRaw (bs : List Nat)
deriving DecidableEq, Repr

/-- Contents of the Tag.error field when it is not Python None: either a plain
string (such as "Success" or the NamedTuple default value) or a captured
exception object with its message. -/
inductive PyErr where
  | str (s : String)
  | exc (msg : String)
deriving DecidableEq, Repr

/-- tag.Tag: device, value, type, error.  Python None maps to none; the
NamedTuple defaults are value=None, type=empty string, error=empty string. -/
structure PTag where
  device : String
  value : Option PyValue := none
  type : String := ""
  error : Option PyErr := some (PyErr.str "")
deriving DecidableEq, Repr

/-- tag.Tag.__bool__ (lines 19-24): True only when value is not None and error
is None. -/
def tag_bool (t : PTag) : Bool := t.value.isSome && t.error.isNone

/-! ## Device string splitting (Type3E.read / Type3E.write) -/

/-- re.search for a single character-class pattern (a run like the digit or
non-digit runs matched in Type3E.read and Type3E.write): the first maximal run
of characters satisfying p, none when no character matches (whereupon the
source would call .group on None and raise AttributeError). -/
def searchRun (p : Char → Bool) : List Char → Option (List Char)
  | [] => none
  | c :: cs => if p c then some (c :: cs.takeWhile p) else searchRun p cs

/-- int(s) for the nonempty decimal digit string returned by the digit-run
match. -/
def digitsToNat (ds : List Char) : Nat :=
  ds.foldl (fun a c => 10 * a + (c.toNat - 48)) 0

/-- Device-reference emission for one element of given word size, from
Type3E.read lines 905-914; the identical splitting code is duplicated in
Type3E.write lines 1016-1027.  An element wider than one word is split into
one device reference per word, the device index (parsed as the first decimal
digit run) incrementing by one per word; a one-word element is emitted as the
original device string. -/
def elementDeviceRefs (device : String) (element_size : Nat) : Option (List String) :=
  if element_size > 1 then
    match searchRun (fun c => !c.isDigit) device.data, searchRun (fun c => c.isDigit) device.data with
    | some dt, some ds =>
        some ((List.range element_size).map fun k =>
          String.mk dt ++ toString (digitsToNat ds + k))
    | _, _ => none
  else some [device]

/-- The per-word payload of one multi-word element in Type3E.write lines
1016-1027: the k-th emitted pair is the device reference with index
device_index + k followed by the k-th wordsize-byte slice of the packed value
bytes (data_index starts at 0 and advances by wordsize per iteration). -/
def writeElementChunks (device_type : String) (device_index : Nat)
    (packed : List Nat) (element_size wordsize : Nat) : List (String × List Nat) :=
  (List.range element_size).map fun k =>
    (device_type ++ toString (device_index + k), (packed.drop (k * wordsize)).take wordsize)

/-! ## Typed tag read (Type3E.read) and write (Type3E.write) -/

/-- Word count accumulated by Type3E.read lines 882-888: every element with a
resolvable data type contributes size//2 words; elements with an unknown type
are skipped.  Note that BIT-typed elements are NOT skipped here: get_dt_size
of the bit symbol is 2, so each bit tag contributes one word. -/
def read_words_count (devices : List PTag) : Nat :=
  devices.foldl
    (fun acc e =>
      match get_dt_size e.type with
      | some s => acc + s / 2
      | none => acc)
    0

/-- Word count accumulated by Type3E.write lines 976-985: bit-typed elements
are skipped before the size lookup, then as in read. -/
def write_words_count (devices : List PTag) : Nat :=
  devices.foldl
    (fun acc e =>
      if e.type == "b" then acc
      else
        match get_dt_size e.type with
        | some s => acc + s / 2
        | none => acc)
    0

/-- The device references placed in the combined random-read payload by
Type3E.read lines 895-914, in order: unknown-type elements are skipped,
every other element (bit-typed ones included) contributes its (possibly
split) references; none models an uncaught regex failure. -/
def read_payload_device_refs : List PTag → Option (List String)
  | [] => some []
  | e :: rest =>
      match get_dt_size e.type with
      | none => read_payload_device_refs rest
      | some s =>
          match elementDeviceRefs e.device (s / 2) with
          | none => none
          | some refs => (read_payload_device_refs rest).map (refs ++ ·)

/-- The device-reference and routing projection of the Type3E.write element
loop (the bit test and batch_write_bits dispatch at lines 994-998, the size
lookup at 1000-1006, the reference emission at 1016-1029): the first
component collects the device references of the combined random-write payload
and the second collects, in order, the (device, value) pairs routed out of
band through batch_write_bits(ref_device=device, values=[value]); bit-typed
elements go only to the second component, unknown-type elements to neither
(they are returned as error tags).  Not modelled here: the value bytes
interleaved with the references, and the unsigned-negation guard at line
1008, whose lookup of const.DT.uWORD (the class spells it UWORD) would itself
raise AttributeError for every non-bit resolvable element — that guard lies
outside this projection and outside the slice cited for the routing claim. -/
def write_routing : List PTag → Option (List String × List (String × Option PyValue))
  | [] => some ([], [])
  | e :: rest =>
      if e.type == "b" then
        (write_routing rest).map fun pr => (pr.1, (e.device, e.value) :: pr.2)
      else
        match get_dt_size e.type with
        | none => write_routing rest
        | some s =>
            match elementDeviceRefs e.device (s / 2) with
            | none => none
            | some refs => (write_routing rest).map fun pr => (refs ++ pr.1, pr.2)

/-- struct.unpack_from on the response buffer: reads the format's byte count
at the given offset, none (struct.error) when the buffer is too short.  The
source omits a byte-order prefix here, meaning native order, little-endian on
the usual hosts; float formats are kept abstract as raw bytes. -/
def unpack_from (fmt : String) (recv : List Nat) (offset : Nat) : Option PyValue :=
  if fmt == "f" then
    if offset + 4 ≤ recv.length then some (.floatRaw ((recv.drop offset).take 4)) else none
  else if fmt == "d" then
    if offset + 8 ≤ recv.length then some (.floatRaw ((recv.drop offset).take 8)) else none
  else
    match fmtSize fmt with
    | none => none
    | some n =>
        if offset + n ≤ recv.length then
          match structUnpack fmt ((recv.drop offset).take n) with
          | some (PyNum.int v) => some (PyValue.int v)
          | _ => none
        else none

/-- The 6-decimal FLOAT normalization at Type3E.read line 950 transforms only
the numeric content of a FLOAT value, which this embedding keeps abstract
(floatRaw); it never touches the device, type or error fields.  It is
therefore modelled as the identity on the abstract value. -/
def roundFloat6 (v : PyValue) : PyValue := v

/-- The per-element value computation of Type3E.read lines 941-947: a BIT
element is recast as an unsigned word ('H') and bit 0 extracted as a Python
bool; any other element is unpacked with its own format character. -/
def read_element_value (e : PTag) (recv : List Nat) (data_index : Nat) : Option PyValue :=
  if e.type == "b" then
    match unpack_from "H" recv data_index with
    | some (PyValue.int w) => some (.bool (w.toNat &&& 1 != 0))
    | _ => none
  else unpack_from e.type recv data_index

/-- The response-decoding loop of Type3E.read lines 932-954.  For each element:
an unresolvable data type is captured as a DataTypeError in the tag's error
field (with the message text of constants.get_dt_size) and the data index does
not advance; otherwise the value is unpacked at the data index, the type field
is replaced by the canonical name, the error field is set to the string
"Success", and the data index advances by the element's byte size.  none
models an exception escaping the loop (struct.error on a short buffer, or
get_dt_name raising). -/
def read_decode_loop : List PTag → List Nat → Nat → Option (List PTag)
  | [], _, _ => some []
  | e :: rest, recv, data_index =>
      match get_dt_size e.type with
      | none =>
          (read_decode_loop rest recv data_index).map fun out =>
            ⟨e.device, e.value, e.type,
              some (.exc ("Data type \"" ++ e.type ++ "\" is not supported."))⟩ :: out
      | some size =>
          match read_element_value e recv data_index with
          | none => none
          | some v =>
              match get_dt_name e.type with
              | none => none
              | some tname =>
                  (read_decode_loop rest recv (data_index + size)).map fun out =>
                    ⟨e.device, some (if e.type == "f" then roundFloat6 v else v),
                      tname, some (.str "Success")⟩ :: out

/-- The response phase of Type3E.read lines 925-931: output starts empty, the
status check may raise MCError, and that exception is CAUGHT, returning the
empty output list; only on status 0 does the decode loop run.  The status word
passed here is the one _check_command_response decodes from the buffer. -/
def read_response_phase (status : Nat) (devices : List PTag) (recv : List Nat)
    (data_index : Nat) : Option (List PTag) :=
  match check_mc_error status with
  | .error _ => some []
  | .ok _ => read_decode_loop devices recv data_index

/-! ## Response offsets (Type3E / Type4E) -/

/-- Type3E._get_response_data_index (lines 231-242). -/
def type3e_response_data_index : CommType → Nat
  | .binary => 11
  | .ascii => 22

/-- Type3E._get_response_status_index (lines 245-256). -/
def type3e_response_status_index : CommType → Nat
  | .binary => 9
  | .ascii => 18

/-- Type4E._get_response_data_index (type4e.py lines 41-49). -/
def type4e_response_data_index : CommType → Nat
  | .binary => 15
  | .ascii => 30

/-- Type4E._get_response_status_index (type4e.py lines 52-59). -/
def type4e_response_status_index : CommType → Nat
  | .binary => 13
  | .ascii => 26

/-! ## Remote password validation (Type3E.remote_lock / remote_unlock) -/

/-- The validation prefix shared verbatim by Type3E.remote_unlock lines
1271-1280 and Type3E.remote_lock lines 1311-1321, which runs before any
request payload is built: password.encode of a string containing a code point
above 127 raises UnicodeEncodeError, re-raised as ValueError; then the length
must be 6..32 for iQ-R and exactly 4 for every other series.  The password is
given as its list of character code points. -/
def validate_remote_password (plc_type : PlcSeries) (password : List Nat) :
    Except String Unit :=
  if password.all (fun c => c ≤ 127) then
    if plc_type == PlcSeries.iQR then
      if 6 ≤ password.length ∧ password.length ≤ 32 then .ok ()
      else .error "password length must be from 6 to 32"
    else
      if password.length = 4 then .ok ()
      else .error "password length must be 4"
  else .error "password must be only ascii code"

/-! ## Bit packing (Type3E.batch_write_bits / batch_read_bits) -/

/-- The value check at the head of Type3E.batch_write_bits lines 650-652. -/
def batch_write_bits_validate (values : List Nat) : Except String Unit :=
  if values.all (fun v => v == 0 || v == 1) then .ok ()
  else .error "Each value must be 0 (OFF) or 1 (ON)."

/-- Type3E.batch_write_bits, binary branch (lines 664-678): the source fills a
zero-initialized list of length (len(values)+1)//2 by OR-ing value << 4 for an
even logical index and value << 0 for an odd one into entry index//2.  Entry
vi therefore ends as (values[2vi] <<< 4) ||| (values[2vi+1] <<< 0), a missing
odd value contributing the initial 0; that closed per-entry form is used
here. -/
def pack_bits_binary (values : List Nat) : List Nat :=
  (List.range ((values.length + 1) / 2)).map fun vi =>
    ((values.getD (2 * vi) 0) <<< 4) ||| ((values.getD (2 * vi + 1) 0) <<< 0)

/-- Type3E.batch_read_bits, binary branch (lines 584-593): bit i comes from
response byte i//2 (relative to the data offset); an even i tests bit 4, an
odd i tests bit 0. -/
def unpack_bits_binary (recv : List Nat) (read_size : Nat) : List Nat :=
  (List.range read_size).map fun i =>
    let value := recv.getD (i / 2) 0
    if i % 2 == 0 then (if value &&& (1 <<< 4) ≠ 0 then 1 else 0)
    else (if value &&& (1 <<< 0) ≠ 0 then 1 else 0)

/-- Type3E.batch_write_bits, ASCII branch (lines 679-681): str(value) for each
value, one decimal digit character per bit (the values were validated to be 0
or 1, for which str yields that single digit). -/
def pack_bits_ascii (values : List Nat) : List Char :=
  values.map fun v => Char.ofNat (48 + v)

/-- int(s) for a one-character slice in the ASCII branch of batch_read_bits: a
decimal digit parses to its value, any other character raises ValueError. -/
def charDigitVal (c : Char) : Option Nat :=
  if 48 ≤ c.toNat ∧ c.toNat ≤ 57 then some (c.toNat - 48) else none

/-- Type3E.batch_read_bits, ASCII branch (lines 594-601): one character
consumed per bit, parsed as a decimal digit; reading past the buffer yields an
empty slice whose int() raises (none). -/
def unpack_bits_ascii : List Char → Nat → Option (List Nat)
  | _, 0 => some []
  | [], _ + 1 => none
  | c :: rest, n + 1 =>
      match charDigitVal c with
      | none => none
      | some v => (unpack_bits_ascii rest n).map (v :: ·)

/-! ## Claim theorems -/

/-- C8 counterexample: the claim says the 4E offsets shift by +4 relative to
3E also in ASCII mode, but the ASCII status offsets are 18 (3E) and 26 (4E):
the 4 extra raw bytes of the 4E serial-number and reserved fields render as 8
hex characters in ASCII mode, so the ASCII shift is +8 and 18 + 4 = 22
differs from the actual 26 (similarly 22 + 4 = 26 differs from the actual
data offset 30). -/
theorem C8_counterexample :
    type4e_response_status_index CommType.ascii = 26
    ∧ type3e_response_status_index CommType.ascii + 4 = 22
    ∧ type4e_response_data_index CommType.ascii = 30
    ∧ type3e_response_data_index CommType.ascii + 4 = 26 :=
  ⟨rfl, rfl, rfl, rfl⟩

/-- C8 amended: the response status offset and response data offset are
functions of the frame type and encoding mode only — by construction the four
embedded accessors take no other argument, mirroring the source methods whose
bodies read only self.comm_type — with values 9/18 (status) and 11/22 (data)
for 3E frames and 13/26 and 15/30 for 4E frames; the 4E shift relative to 3E
is +4 bytes in binary mode and +8 bytes in ASCII mode. -/
theorem C8_response_offsets :
    type3e_response_status_index CommType.binary = 9
    ∧ type3e_response_status_index CommType.ascii = 18
    ∧ type3e_response_data_index CommType.binary = 11
    ∧ type3e_response_data_index CommType.ascii = 22
    ∧ type4e_response_status_index CommType.binary = 13
    ∧ type4e_response_status_index CommType.ascii = 26
    ∧ type4e_response_data_index CommType.binary = 15
    ∧ type4e_response_data_index CommType.ascii = 30
    ∧ (type4e_response_status_index CommType.binary
        = type3e_response_status_index CommType.binary + 4
      ∧ type4e_response_data_index CommType.binary
        = type3e_response_data_index CommType.binary + 4)
    ∧ (type4e_response_status_index CommType.ascii
        = type3e_response_status_index CommType.ascii + 8
      ∧ type4e_response_data_index CommType.ascii
        = type3e_response_data_index CommType.ascii + 8) :=
  ⟨rfl, rfl, rfl, rfl, rfl, rfl, rfl, rfl, ⟨rfl, rfl⟩, ⟨rfl, rfl⟩⟩

/-- C9: remote_lock and remote_unlock validate the password before building
any payload (the embedded function is the check prefix that precedes all
request_data construction in the source) and succeed exactly when the password
is pure ASCII and its length is 4 for Q/L/QnA/iQ-L or within 6..32 for iQ-R;
a 4-character ASCII password is accepted for Q, L, QnA and iQ-L and rejected
for iQ-R, and a non-ASCII password is rejected for every series. -/
theorem C9_password_validation :
    (∀ (plc_type : PlcSeries) (password : List Nat),
        validate_remote_password plc_type password = Except.ok () ↔
          (password.all (fun c => c ≤ 127) = true ∧
            (if plc_type = PlcSeries.iQR then 6 ≤ password.length ∧ password.length ≤ 32
             else password.length = 4)))
    ∧ validate_remote_password PlcSeries.Q [116, 101, 115, 116] = Except.ok ()
    ∧ validate_remote_password PlcSeries.L [116, 101, 115, 116] = Except.ok ()
    ∧ validate_remote_password PlcSeries.QnA [116, 101, 115, 116] = Except.ok ()
    ∧ validate_remote_password PlcSeries.iQL [116, 101, 115, 116] = Except.ok ()
    ∧ validate_remote_password PlcSeries.iQR [116, 101, 115, 116] =
        Except.error "password length must be from 6 to 32"
    ∧ (∀ plc_type : PlcSeries,
        validate_remote_password plc_type [116, 233, 115, 116] =
          Except.error "password must be only ascii code") := by
  refine ⟨fun p pw => ?_, rfl, rfl, rfl, rfl, rfl, fun p => ?_⟩
  · unfold validate_remote_password
    split_ifs with h1 h2 h3 h4 <;> simp_all [beq_iff_eq]
  · cases p <;> rfl

/-- C3: the error-mapper check raises exactly on a non-zero status word, but
the rest of the claim fails on the code: MCError.__init__ stores the status as
the DECIMAL string "0x49238" for status 0xC056 rather than 4-digit uppercase
hex, and MCError.__str__ compares that string against int constants, so the
lookup raises TypeError instead of ever producing the "exceeds the maximum
address" message; an unknown status such as 0x9999 renders as the decimal
"0x39321", not as "0x9999". -/
theorem C3_error_mapper :
    (∀ status : Nat, check_mc_error status = Except.ok () ↔ status = 0)
    ∧ mcErrorCodeStr 0xC056 = "0x49238"
    ∧ mcErrorStr (mcErrorCodeStr 0xC056) = Except.error "TypeError"
    ∧ mcErrorCodeStr 0x9999 = "0x39321"
    ∧ mcErrorStr (mcErrorCodeStr 0x9999) = Except.error "TypeError"
    ∧ check_mc_error 0xC056 = Except.error ⟨"0x49238"⟩ := by
  refine ⟨fun s => ?_, rfl, rfl, rfl, rfl, rfl⟩
  unfold check_mc_error
  split_ifs with h <;> simp [h]

/-- C5: an iQ-R-only device name on a non-iQ-R series always raises
DeviceCodeError, and on iQ-R ten of the eleven names resolve — but "LSTC"
raises DeviceCodeError even on iQ-R, in both the binary and the ASCII table,
because the source has no LSTC branch (its declared code 0x58 is never
returned), contradicting the claim that every name in the list resolves on
iQ-R. -/
theorem C5_iqr_device_codes :
    (∀ s ∈ [PlcSeries.Q, PlcSeries.L, PlcSeries.QnA, PlcSeries.iQL],
        ∀ n ∈ iqrOnlyNames,
          get_binary_device_code s n = Except.error (s, n)
          ∧ get_ascii_device_code s n = Except.error (s, n))
    ∧ get_binary_device_code PlcSeries.iQR "LTS" = Except.ok (0x51, 10)
    ∧ get_binary_device_code PlcSeries.iQR "LTC" = Except.ok (0x50, 10)
    ∧ get_binary_device_code PlcSeries.iQR "LTN" = Except.ok (0x52, 10)
    ∧ get_binary_device_code PlcSeries.iQR "LSTS" = Except.ok (0x59, 10)
    ∧ get_binary_device_code PlcSeries.iQR "LSTN" = Except.ok (0x5A, 10)
    ∧ get_binary_device_code PlcSeries.iQR "LCS" = Except.ok (0x55, 10)
    ∧ get_binary_device_code PlcSeries.iQR "LCC" = Except.ok (0x54, 10)
    ∧ get_binary_device_code PlcSeries.iQR "LCN" = Except.ok (0x56, 10)
    ∧ get_binary_device_code PlcSeries.iQR "LZ" = Except.ok (0x62, 10)
    ∧ get_binary_device_code PlcSeries.iQR "RD" = Except.ok (0x2C, 10)
    ∧ get_ascii_device_code PlcSeries.iQR "LTS" = Except.ok ("LTS*", 10)
    ∧ get_ascii_device_code PlcSeries.iQR "LZ" = Except.ok ("LZ**", 10)
    ∧ get_ascii_device_code PlcSeries.iQR "RD" = Except.ok ("RD**", 10)
    ∧ "LSTC" ∈ iqrOnlyNames
    ∧ get_binary_device_code PlcSeries.iQR "LSTC" = Except.error (PlcSeries.iQR, "LSTC")
    ∧ get_ascii_device_code PlcSeries.iQR "LSTC" = Except.error (PlcSeries.iQR, "LSTC") := by
  refine ⟨?_, rfl, rfl, rfl, rfl, rfl, rfl, rfl, rfl, rfl, rfl, rfl, rfl, rfl,
    by simp [iqrOnlyNames], rfl, rfl⟩
  intro s hs n hn
  fin_cases hs <;> fin_cases hn <;> exact ⟨rfl, rfl⟩

/-- Witness for C5 at the concrete input series Q, device name "LZ". -/
theorem C5_iqr_device_codes_witness :
    get_binary_device_code PlcSeries.Q "LZ" = Except.error (PlcSeries.Q, "LZ")
    ∧ get_ascii_device_code PlcSeries.Q "LZ" = Except.error (PlcSeries.Q, "LZ") :=
  C5_iqr_device_codes.1 PlcSeries.Q (by simp) "LZ" (by simp [iqrOnlyNames])

/-- C7 counterexample: the claim as stated says the typed tag read surfaces a
non-zero-status MCError to its caller, but Type3E.read catches MCError and
returns its (empty) output list: at status 0xC056 = 49238 the response phase
returns the normal value some [] instead of propagating the error that
check_mc_error raised. -/
theorem C7_counterexample :
    read_response_phase 49238 [⟨"D100", none, "h", some (PyErr.str "")⟩]
        (List.replicate 20 7) 11 = some []
    ∧ check_mc_error 49238 = Except.error ⟨"0x49238"⟩ := ⟨rfl, rfl⟩

/-- C7 amended: a non-zero status makes the shared status check raise MCError
(which every command without a handler propagates), except that the typed tag
read is a fourth carve-out beside the three listed: it catches the MCError and
returns an empty list for every device list, buffer and offset. -/
theorem C7_mcerror_propagation (status : Nat) (h : status ≠ 0) :
    check_mc_error status = Except.error ⟨mcErrorCodeStr status⟩
    ∧ ∀ (devices : List PTag) (recv : List Nat) (idx : Nat),
        read_response_phase status devices recv idx = some [] := by
  refine ⟨?_, fun devices recv idx => ?_⟩ <;>
    simp [check_mc_error, read_response_phase, h]

/-- Witness for C7 at the concrete status 49238. -/
theorem C7_mcerror_propagation_witness :
    check_mc_error 49238 = Except.error ⟨mcErrorCodeStr 49238⟩
    ∧ read_response_phase 49238 [] [] 0 = some [] :=
  ⟨(C7_mcerror_propagation 49238 (by decide)).1,
   (C7_mcerror_propagation 49238 (by decide)).2 [] [] 0⟩

/-- C1: in binary mode, for every INTEGER data type, whenever _encode_value
succeeds on a value the decoding of the produced bytes with the same data
type and signedness returns exactly that value (so every value inside the
type's domain round-trips, and -1 round-trips for SWORD only with
isSigned=True, the unsigned variant rejecting it).  The claim's full
quantification fails in two ways.  First, at the FLOAT type even binary mode
does not round-trip: encoding 16777217 = 2^24 + 1 succeeds (bytes
00 00 80 4B) but the bytes represent 8388608 * 2^1 = 16777216, so the decoded
float compares unequal to the original value.  Second, in ASCII mode
_encode_value raises ValueError for EVERY mode — it applies a hex format spec
to the bytes object produced by struct.pack in the bit branch, and every
other branch evaluates the non-existent attribute const.DT.sWORD — and
_decode_value calls bytes.fromhex on a bytes object, so nothing round-trips
in ASCII mode. -/
theorem C1_value_codec :
    (∀ (mode : String) (isSigned : Bool) (v : Int) (bs : List Nat),
        fmtIsInt (if isSigned then mode else strUpper mode) = true →
        encode_value CommType.binary v mode isSigned = some bs →
        decode_value CommType.binary bs mode isSigned = some (PyNum.int v))
    ∧ encode_value CommType.binary 16777217 "f" true = some [0, 0, 128, 75]
    ∧ decode_value CommType.binary [0, 0, 128, 75] "f" true
        = some (PyNum.float 8388608 1)
    ∧ pyNumEqInt (PyNum.float 8388608 1) 16777217 = false
    ∧ pyNumEqInt (PyNum.float 8388608 1) 16777216 = true
    ∧ encode_value CommType.ascii 1 "h" false = none
    ∧ encode_value CommType.ascii 1 "b" false = none
    ∧ encode_value CommType.ascii 100 "i" true = none
    ∧ encode_value CommType.ascii 5 "q" true = none
    ∧ decode_value CommType.ascii [49, 48, 48, 48] "h" false = none
    ∧ encode_value CommType.binary (-1) "h" false = none
    ∧ encode_value CommType.binary (-1) "h" true = some [255, 255] := by
  refine ⟨?_, rfl, rfl, rfl, rfl, rfl, rfl, rfl, rfl, rfl, rfl, rfl⟩
  intro mode isSigned v bs hint h
  simp only [encode_value] at h
  split at h
  · exact absurd h (by simp)
  next bs2 heq =>
    rw [if_pos trivial] at h
    injection h with hbs
    subst hbs
    simp only [decode_value]
    exact structUnpack_structPack _ hint v bs2 heq

/-- Witness for C1 at the concrete input -1, SWORD, signed, binary mode. -/
theorem C1_value_codec_witness :
    fmtIsInt "h" = true
    ∧ encode_value CommType.binary (-1) "h" true = some [255, 255]
    ∧ decode_value CommType.binary [255, 255] "h" true = some (PyNum.int (-1)) :=
  ⟨rfl, rfl, C1_value_codec.1 "h" true (-1) [255, 255] rfl rfl⟩

/-- C2: a data type wider than one word is emitted as one device reference per
word with the device index auto-incremented: a DOUBLE (8 bytes, 4 words) at
D100 addresses exactly D100, D101, D102 and D103, a FLOAT (4 bytes, 2 words)
at D200 addresses D200 and D201; on the write side the packed value bytes are
distributed word-by-word over those references (their concatenation being the
original packed value), and on the read side the decode loop consumes the
element's full byte size at one offset, reassembling one multi-word value
(shown for the 4-word SLWORD, whose 8 response bytes decode to the single
value -2^63 here). -/
theorem C2_multiword_split (b0 b1 b2 b3 b4 b5 b6 b7 : Nat) :
    (get_dt_size "d" = some 8
      ∧ elementDeviceRefs "D100" (8 / 2) = some ["D100", "D101", "D102", "D103"])
    ∧ (get_dt_size "f" = some 4
      ∧ elementDeviceRefs "D200" (4 / 2) = some ["D200", "D201"])
    ∧ writeElementChunks "D" 100 [b0, b1, b2, b3, b4, b5, b6, b7] 4 2
        = [("D100", [b0, b1]), ("D101", [b2, b3]), ("D102", [b4, b5]), ("D103", [b6, b7])]
    ∧ [b0, b1] ++ ([b2, b3] ++ ([b4, b5] ++ [b6, b7]))
        = [b0, b1, b2, b3, b4, b5, b6, b7]
    ∧ (∀ (dt : String) (idx : Nat) (packed : List Nat) (size ws : Nat),
        (writeElementChunks dt idx packed size ws).map Prod.fst
          = (List.range size).map (fun k => dt ++ toString (idx + k)))
    ∧ read_decode_loop [⟨"D100", none, "q", some (PyErr.str "")⟩]
        [0, 0, 0, 0, 0, 0, 0, 128] 0
        = some [⟨"D100", some (PyValue.int (-9223372036854775808)), "SLWORD",
            some (PyErr.str "Success")⟩] := by
  refine ⟨⟨rfl, rfl⟩, ⟨rfl, rfl⟩, rfl, rfl, fun dt idx packed size ws => ?_, rfl⟩
  rw [writeElementChunks, List.map_map]
  rfl

/-- C4 helper: an index inside a range-map list reads back the mapped
function. -/
theorem getD_range_map (m : Nat) (f : Nat → Nat) (j : Nat) (hj : j < m) :
    ((List.range m).map f).getD j 0 = f j := by
  rw [List.getD_eq_getElem ((List.range m).map f) 0 (by simpa using hj)]
  simp

/-- C4 helper: reading any index (with default 0) from a 0/1 list yields 0 or
1. -/
theorem getD_zero_or_one (values : List Nat) (h : ∀ v ∈ values, v = 0 ∨ v = 1)
    (j : Nat) : values.getD j 0 = 0 ∨ values.getD j 0 = 1 := by
  by_cases hj : j < values.length
  · rw [List.getD_eq_getElem values 0 hj]
    exact h _ (values.getElem_mem hj)
  · rw [List.getD_eq_default values 0 (by omega)]
    exact Or.inl rfl

/-- C4, binary half: unpacking the response bytes produced by the bit packer
with the same count restores the 0/1 sequence, for both parities of the
length. -/
theorem unpack_pack_bits_binary (values : List Nat)
    (h : ∀ v ∈ values, v = 0 ∨ v = 1) :
    unpack_bits_binary (pack_bits_binary values) values.length = values := by
  apply List.ext_getElem
  · simp [unpack_bits_binary]
  · intro i hi hiv
    have hhalf : i / 2 < (values.length + 1) / 2 := by omega
    simp only [unpack_bits_binary, List.getElem_map, List.getElem_range]
    rw [show pack_bits_binary values
        = (List.range ((values.length + 1) / 2)).map (fun vi =>
            ((values.getD (2 * vi) 0) <<< 4) ||| ((values.getD (2 * vi + 1) 0) <<< 0))
        from rfl]
    rw [getD_range_map _ _ _ hhalf]
    rcases Nat.even_or_odd i with he | ho
    · have h2 : 2 * (i / 2) = i := by
        obtain ⟨k, hk⟩ := he
        omega
      have hm : i % 2 = 0 := by
        obtain ⟨k, hk⟩ := he
        omega
      rw [h2, hm, List.getD_eq_getElem values 0 hiv]
      rcases h _ (values.getElem_mem hiv) with hv | hv <;>
        rcases getD_zero_or_one values h (i + 1) with hb | hb <;>
          rw [hv, hb] <;> rfl
    · have h2 : 2 * (i / 2) + 1 = i := by
        obtain ⟨k, hk⟩ := ho
        omega
      have hm : i % 2 = 1 := by
        obtain ⟨k, hk⟩ := ho
        omega
      rw [h2, hm, List.getD_eq_getElem values 0 hiv]
      rcases h _ (values.getElem_mem hiv) with hv | hv <;>
        rcases getD_zero_or_one values h (2 * (i / 2)) with hb | hb <;>
          rw [hv, hb] <;> rfl

/-- C4, ASCII half: one digit character per bit, parsed back. -/
theorem unpack_pack_bits_ascii (values : List Nat)
    (h : ∀ v ∈ values, v = 0 ∨ v = 1) :
    unpack_bits_ascii (pack_bits_ascii values) values.length = some values := by
  induction values with
  | nil => rfl
  | cons v vs ih =>
      have hrest : ∀ x ∈ vs, x = 0 ∨ x = 1 := fun x hx => h x (List.mem_cons_of_mem v hx)
      have ih2 := ih hrest
      simp only [pack_bits_ascii] at ih2 ⊢
      simp only [List.map_cons, List.length_cons, unpack_bits_ascii]
      rcases h v (List.mem_cons_self v vs) with rfl | rfl
      · rw [show charDigitVal (Char.ofNat (48 + 0)) = some 0 from rfl, ih2]
        rfl
      · rw [show charDigitVal (Char.ofNat (48 + 1)) = some 1 from rfl, ih2]
        rfl

/-- C4: for every list of 0/1 values — which is exactly what the write-side
validation admits — packing them two per byte for batch write and unpacking a
response holding those same bytes with the same count restores the identical
sequence, in binary mode; in ASCII mode the digit-character encoding
round-trips likewise.  Both even and odd lengths are covered (the odd case
exercises the final half-filled byte). -/
theorem C4_bit_roundtrip (values : List Nat) (h : ∀ v ∈ values, v = 0 ∨ v = 1) :
    unpack_bits_binary (pack_bits_binary values) values.length = values
    ∧ unpack_bits_ascii (pack_bits_ascii values) values.length = some values
    ∧ batch_write_bits_validate values = Except.ok () := by
  refine ⟨unpack_pack_bits_binary values h, unpack_pack_bits_ascii values h, ?_⟩
  have hall : values.all (fun v => v == 0 || v == 1) = true := by
    simp only [List.all_eq_true]
    intro v hv
    rcases h v hv with rfl | rfl <;> rfl
  unfold batch_write_bits_validate
  rw [if_pos hall]

/-- Witness for C4 at the odd-length concrete input 1, 0, 1. -/
theorem C4_bit_roundtrip_witness :
    unpack_bits_binary (pack_bits_binary [1, 0, 1]) 3 = [1, 0, 1]
    ∧ unpack_bits_ascii (pack_bits_ascii [1, 0, 1]) 3 = some [1, 0, 1]
    ∧ batch_write_bits_validate [1, 0, 1] = Except.ok () :=
  C4_bit_roundtrip [1, 0, 1] (by decide)

/-- C6 helper: a left fold adding a per-element amount equals the initial
value plus the sum of the amounts. -/
theorem foldl_add_eq_sum {α : Type} (g : α → Nat) (l : List α) (init : Nat) :
    l.foldl (fun acc a => acc + g a) init = init + (l.map g).sum := by
  induction l generalizing init with
  | nil => simp
  | cons a l ih =>
      rw [List.foldl_cons, ih]
      simp [List.map_cons, List.sum_cons]
      omega

/-- C6 helper: the read-side word count as a sum over elements. -/
theorem read_words_count_eq (l : List PTag) :
    read_words_count l
      = (l.map (fun e =>
          match get_dt_size e.type with
          | some s => s / 2
          | none => 0)).sum := by
  unfold read_words_count
  have hfun : (fun (acc : Nat) (e : PTag) =>
        match get_dt_size e.type with
        | some s => acc + s / 2
        | none => acc)
      = (fun acc e => acc +
          (match get_dt_size e.type with
           | some s => s / 2
           | none => 0)) := by
    funext acc e
    cases get_dt_size e.type <;> simp
  rw [hfun, foldl_add_eq_sum]
  simp

/-- C6 helper: the write-side word count as a sum over elements. -/
theorem write_words_count_eq (l : List PTag) :
    write_words_count l
      = (l.map (fun e =>
          if e.type == "b" then 0
          else
            match get_dt_size e.type with
            | some s => s / 2
            | none => 0)).sum := by
  unfold write_words_count
  have hfun : (fun (acc : Nat) (e : PTag) =>
        if e.type == "b" then acc
        else
          match get_dt_size e.type with
          | some s => acc + s / 2
          | none => acc)
      = (fun acc e => acc +
          (if e.type == "b" then 0
           else
             match get_dt_size e.type with
             | some s => s / 2
             | none => 0)) := by
    funext acc e
    by_cases hb : (e.type == "b") = true
    · simp [hb]
    · simp only [hb, Bool.false_eq_true, if_false]
      cases get_dt_size e.type <;> simp
  rw [hfun, foldl_add_eq_sum]
  simp

/-- C6 counterexample: a bit-typed tag in the typed READ is neither excluded
from the accumulated word count (it contributes one word, since the bit
symbol's size lookup returns 2 bytes) nor from the combined random-access
payload (its device reference is emitted), contradicting the claim that both
read and write exclude bit tags and route them out of band. -/
theorem C6_counterexample :
    read_words_count [⟨"M0", none, "b", some (PyErr.str "")⟩] = 1
    ∧ read_payload_device_refs [⟨"M0", none, "b", some (PyErr.str "")⟩] = some ["M0"] :=
  ⟨rfl, rfl⟩

/-- C6 amended: in the typed WRITE, bit-typed tags are excluded from the
combined payload and the word count and are routed out of band through the
batch bit-write path, one call per tag with a singleton value list; in the
typed READ, bit-typed tags are instead kept in band: each contributes one word
to the header count, its device reference joins the combined payload, and its
value is decoded by reading a whole word and extracting bit 0. -/
theorem C6_bit_tag_routing :
    (∀ (d : String) (val : Option PyValue) (err : Option PyErr) (rest : List PTag),
        write_words_count (⟨d, val, "b", err⟩ :: rest) = write_words_count rest
        ∧ read_words_count (⟨d, val, "b", err⟩ :: rest) = 1 + read_words_count rest
        ∧ write_routing (⟨d, val, "b", err⟩ :: rest)
            = (write_routing rest).map (fun pr => (pr.1, (d, val) :: pr.2))
        ∧ read_payload_device_refs (⟨d, val, "b", err⟩ :: rest)
            = (read_payload_device_refs rest).map (fun l => d :: l))
    ∧ read_decode_loop [⟨"M0", none, "b", some (PyErr.str "")⟩] [5, 0] 0
        = some [⟨"M0", some (PyValue.bool true), "BIT", some (PyErr.str "Success")⟩] := by
  refine ⟨fun d val err rest => ⟨?_, ?_, rfl, rfl⟩, rfl⟩
  · rw [write_words_count_eq, write_words_count_eq]
    simp
  · rw [read_words_count_eq, read_words_count_eq]
    simp only [List.map_cons, List.sum_cons, show get_dt_size "b" = some 2 from rfl]

/-- C10: every tag in a completed typed-read output carries a non-None error
field — the string "Success" for a decoded element, or the captured
DataTypeError for an element whose type could not be resolved — and since
Tag.__bool__ demands error to be None, every returned tag is falsy even when
it holds a successfully decoded value. -/
theorem C10_read_tags_all_falsy (tags : List PTag) (recv : List Nat) (idx : Nat)
    (out : List PTag) (h : read_decode_loop tags recv idx = some out) :
    ∀ t ∈ out,
      (t.error = some (PyErr.str "Success") ∨ ∃ m, t.error = some (PyErr.exc m))
      ∧ tag_bool t = false := by
  induction tags generalizing idx out with
  | nil =>
      simp only [read_decode_loop] at h
      injection h with h2
      subst h2
      intro t ht
      exact absurd ht (List.not_mem_nil t)
  | cons e rest ih =>
      simp only [read_decode_loop] at h
      split at h
      · -- get_dt_size e.type = none: error tag prepended
        cases hr : read_decode_loop rest recv idx with
        | none => rw [hr] at h; exact absurd h (by simp)
        | some out2 =>
            rw [hr] at h
            simp only [Option.map_some'] at h
            injection h with h2
            subst h2
            intro t ht
            rcases List.mem_cons.mp ht with rfl | hmem
            · exact ⟨Or.inr ⟨_, rfl⟩, by simp [tag_bool]⟩
            · exact ih idx out2 hr t hmem
      · -- get_dt_size e.type = some size
        rename_i size hsize
        split at h
        · exact absurd h (by simp)
        · rename_i v hv
          split at h
          · exact absurd h (by simp)
          · rename_i tname hn
            cases hr : read_decode_loop rest recv (idx + size) with
            | none => rw [hr] at h; exact absurd h (by simp)
            | some out2 =>
                rw [hr] at h
                simp only [Option.map_some'] at h
                injection h with h2
                subst h2
                intro t ht
                rcases List.mem_cons.mp ht with rfl | hmem
                · exact ⟨Or.inl rfl, by simp [tag_bool]⟩
                · exact ih (idx + size) out2 hr t hmem

/-- Witness for C10 at a two-element input with one decodable SWORD tag and
one unresolvable type. -/
theorem C10_read_tags_all_falsy_witness :
    tag_bool ⟨"D0", some (PyValue.int 1), "SWORD", some (PyErr.str "Success")⟩ = false
    ∧ tag_bool ⟨"D1", none, "zz",
        some (PyErr.exc "Data type \"zz\" is not supported.")⟩ = false := by
  have h : read_decode_loop
      [⟨"D0", none, "h", some (PyErr.str "")⟩, ⟨"D1", none, "zz", some (PyErr.str "")⟩]
      [1, 0] 0
      = some [⟨"D0", some (PyValue.int 1), "SWORD", some (PyErr.str "Success")⟩,
          ⟨"D1", none, "zz", some (PyErr.exc "Data type \"zz\" is not supported.")⟩] := rfl
  exact ⟨(C10_read_tags_all_falsy _ _ _ _ h _ (by simp)).2,
    (C10_read_tags_all_falsy _ _ _ _ h _ (by simp)).2⟩

end Pymelsec
